import Mathlib

/-!
Formal model of the Wine user32 clipboard implementation
(dlls/user32/clipboard.c): codec layer (marshal_data / unmarshal_data),
synthesis engine (add_synthesized_text, render path), and the session
state machine (OpenClipboard, CloseClipboard, EmptyClipboard,
SetClipboardData, GetClipboardData).

Machine integers are modelled as Nat/Int; payload buffers as lists of
bytes.  The wineserver (the session arbiter) is an external collaborator
whose source is not part of this tree, so its format-directory behaviour
is modelled from the spec's arbiter interface; those definitions carry a
doc comment beginning with "Modelled from the spec:".
-/

namespace Clip

/-- Built-in clipboard format identifiers (winuser.h values). -/
def CF_TEXT : Nat := 1

def CF_BITMAP : Nat := 2

def CF_METAFILEPICT : Nat := 3

def CF_OEMTEXT : Nat := 7

def CF_DIB : Nat := 8

def CF_PALETTE : Nat := 9

def CF_UNICODETEXT : Nat := 13

def CF_ENHMETAFILE : Nat := 14

def CF_LOCALE : Nat := 16

def CF_DIBV5 : Nat := 17

/-- Upper bound of the built-in format range; size of the
synthesized_formats cache array. -/
def CF_MAX : Nat := 18

def CF_DSPBITMAP : Nat := 0x0082

def CF_DSPMETAFILEPICT : Nat := 0x0083

def CF_DSPENHMETAFILE : Nat := 0x008E

/-- Byte size of the C BITMAP struct header (32-bit layout:
four LONGs, two WORDs, one pointer). -/
def sizeofBITMAP : Nat := 24

/-- Byte size of the C LOGPALETTE struct (two WORDs plus one
PALETTEENTRY). -/
def sizeofLOGPALETTE : Nat := 8

/-- Byte offset of palPalEntry[n] inside a LOGPALETTE. -/
def offsetofPalEntry (n : Nat) : Nat := 4 + 4 * n

/-- Byte size of the C METAFILEPICT struct (three LONGs plus a handle,
32-bit layout). -/
def sizeofMETAFILEPICT : Nat := 16

/-- Interpretation of a signed machine integer as the unsigned 32-bit
value the C comparison "size < int_expression" converts it to. -/
def toUInt32 (i : Int) : Nat := (i % (4294967296 : Int)).toNat

/-- The C BITMAP struct: the fixed-size header that CF_BITMAP payloads
start with.  bmBits is the embedded pointer field (0 = NULL). -/
structure BITMAP where
  bmType : Int
  bmWidth : Int
  bmHeight : Int
  bmWidthBytes : Int
  bmPlanes : Nat
  bmBitsPixel : Nat
  bmBits : Nat
deriving DecidableEq, Repr

/-- The LOGPALETTE header fields unmarshal_data reads. -/
structure LOGPALETTEHdr where
  palVersion : Nat
  palNumEntries : Nat
deriving DecidableEq, Repr

/-- A payload received from the server in GetClipboardData: the byte
count together with the per-format reinterpretations of its leading
bytes that the C code performs by pointer casting. -/
structure ReceivedData where
  size : Nat
  asBitmap : BITMAP
  asPalette : LOGPALETTEHdr
deriving DecidableEq, Repr

/-- The possible return paths of unmarshal_data: a reconstructed object
(the external constructor that gets invoked, with its argument), or the
raw reallocated byte handle returned as-is. -/
inductive UnmarshalResult where
  | createBitmap (bm : BITMAP)
  | rawHandle
  | createPalette (hdr : LOGPALETTEHdr)
  | setEnhMetaFileBits (size : Nat)
  | metafileHandle (bitsSize : Nat)
deriving DecidableEq, Repr

/-- unmarshal_data (clipboard.c lines 168-205): rebuild the target
handle from the data received in GetClipboardData.  Each "break" in the
C switch falls through to "return handle", i.e. the raw bytes are handed
back unchanged; that is rawHandle here.  The CF_BITMAP size guard is the
source's "size < bm->bmWidthBytes * abs( bm->bmHeight )", an int product
compared against the unsigned size. -/
def unmarshal_data (format : Nat) (d : ReceivedData) : UnmarshalResult :=
  if format = CF_BITMAP then
    if d.size < sizeofBITMAP then .rawHandle
    else if d.size < toUInt32 (d.asBitmap.bmWidthBytes * (d.asBitmap.bmHeight.natAbs : Int)) then
      .rawHandle
    else if d.asBitmap.bmBits ≠ 0 then .rawHandle
    else .createBitmap { d.asBitmap with bmBits := sizeofBITMAP }
  else if format = CF_DSPBITMAP then .rawHandle
  else if format = CF_PALETTE then
    if d.size < sizeofLOGPALETTE then .rawHandle
    else if d.size < offsetofPalEntry d.asPalette.palNumEntries then .rawHandle
    else .createPalette d.asPalette
  else if format = CF_ENHMETAFILE ∨ format = CF_DSPENHMETAFILE then
    .setEnhMetaFileBits d.size
  else if format = CF_METAFILEPICT ∨ format = CF_DSPMETAFILEPICT then
    if d.size ≤ sizeofMETAFILEPICT then .rawHandle
    else .metafileHandle (d.size - sizeofMETAFILEPICT)
  else .rawHandle

/-- Results of the external calls marshal_data makes, one field per
call site. -/
structure MarshalEnv where
  getObjectBitmap : Option BITMAP
  allocOk : Bool
  paletteEntries : Nat
  enhSize : Nat
  mfLock : Bool
  metaSize : Nat
  globalSize : Nat
deriving DecidableEq, Repr

/-- Row stride of a bitmap as computed by marshal_data:
(((bmWidth * bmBitsPixel) + 15) >> 3) & ~1. -/
def bitmapStride (bm : BITMAP) : Nat :=
  ((bm.bmWidth * (bm.bmBitsPixel : Int) + 15).toNat >>> 3) &&& 0xfffffffe

/-- Size of the pixel-bit buffer marshal_data copies:
abs(bmHeight) * stride. -/
def bitmapBitsSize (bm : BITMAP) : Nat := bm.bmHeight.natAbs * bitmapStride bm

/-- marshal_data (clipboard.c lines 99-165): build the flat data to send
to the server in SetClipboardData.  Returns the total byte size on
success, none when the C function returns 0.  The default case carries
the check that GlobalSize is nonzero and representable in data_size_t
(32 bits). -/
def marshal_data (format : Nat) (env : MarshalEnv) : Option Nat :=
  if format = CF_BITMAP ∨ format = CF_DSPBITMAP then
    match env.getObjectBitmap with
    | none => none
    | some bm => if env.allocOk then some (sizeofBITMAP + bitmapBitsSize bm) else none
  else if format = CF_PALETTE then
    if env.paletteEntries = 0 then none
    else if env.allocOk then some (offsetofPalEntry env.paletteEntries) else none
  else if format = CF_ENHMETAFILE ∨ format = CF_DSPENHMETAFILE then
    if env.enhSize = 0 then none
    else if env.allocOk then some env.enhSize else none
  else if format = CF_METAFILEPICT ∨ format = CF_DSPMETAFILEPICT then
    if env.mfLock = false then none
    else if env.metaSize = 0 then none
    else if env.allocOk then some (sizeofMETAFILEPICT + env.metaSize) else none
  else
    if env.globalSize = 0 then none
    else if env.globalSize % 4294967296 ≠ env.globalSize then none
    else some env.globalSize

/-- A flat payload: a list of bytes. -/
abbrev Bytes := List Nat

/-- Modelled from the spec: the arbiter-side clipboard state — the
authoritative format directory (format id to stored bytes) and the
current data owner.  The arbiter (wineserver) is an external
collaborator; its source is not part of this tree (spec section 6). -/
structure ServerState where
  directory : List (Nat × Bytes)
  owner : Option Nat
deriving DecidableEq, Repr

/-- First-match association-list lookup over the directory. -/
def lookupFmt (fmt : Nat) : List (Nat × Bytes) → Option Bytes
  | [] => none
  | (f, b) :: rest => if f = fmt then some b else lookupFmt fmt rest

/-- Modelled from the spec: the arbiter's put(format_id, bytes) —
insert or replace the directory entry for the format. -/
def srv_put (fmt : Nat) (b : Bytes) (s : ServerState) : ServerState :=
  { s with directory := (fmt, b) :: s.directory.filter (fun p => p.1 ≠ fmt) }

/-- Modelled from the spec: the arbiter's get(format_id) — the stored
bytes, or none when the format has no entry. -/
def srv_get (fmt : Nat) (s : ServerState) : Option Bytes := lookupFmt fmt s.directory

/-- Process-local clipboard state of the client library: the
bCBHasChanged flag, the synthesized_formats array (CF_MAX entries,
entry 0 meaning "not synthesized-pending"), plus the arbiter state the
server round-trips act on. -/
structure ClipState where
  bCBHasChanged : Bool
  synthesized_formats : List Nat
  server : ServerState
deriving DecidableEq, Repr

/-- Outcome of a SetClipboardData call: the new state, the returned
handle (none = the C function returned 0), whether the
set_clipboard_data server round-trip was issued, and the payload it
carried. -/
structure SetOutcome where
  state : ClipState
  retval : Option Nat
  requestIssued : Bool
  payload : Option Bytes
deriving DecidableEq, Repr

/-- SetClipboardData (clipboard.c lines 814-848).  data is the caller's
handle (none = NULL, delayed rendering); marshalled abstracts the
marshal_data + GlobalLock step for a non-NULL handle (none = that step
failed); serverOk is the result of the set_clipboard_data round-trip.
On marshal failure the function returns 0 before any server call.  On
server success it sets bCBHasChanged, clears synthesized_formats[format]
(the C guard "format < CF_MAX" is List.set's out-of-range no-op, the
list having CF_MAX entries), and returns the original data handle. -/
def SetClipboardData (format : Nat) (data : Option Nat) (marshalled : Option Bytes)
    (serverOk : Bool) (s : ClipState) : SetOutcome :=
  match data with
  | some d =>
    match marshalled with
    | none => ⟨s, none, false, none⟩
    | some bytes =>
      if serverOk then
        ⟨{ s with bCBHasChanged := true,
                  synthesized_formats := s.synthesized_formats.set format 0,
                  server := srv_put format bytes s.server },
         some d, true, some bytes⟩
      else ⟨s, none, true, some bytes⟩
  | none =>
    if serverOk then
      ⟨{ s with bCBHasChanged := true,
                synthesized_formats := s.synthesized_formats.set format 0,
                server := srv_put format [] s.server },
       none, true, some []⟩
    else ⟨s, none, true, some []⟩

/-- OpenClipboard (clipboard.c lines 611-634).  serverOk is the result
of the open_clipboard round-trip; the reply's owner field is the
arbiter's current owner.  Exactly when the call succeeds and no owner
exists, bCBHasChanged is reset and synthesized_formats is memset to
zero; the arbiter directory is never touched. -/
def OpenClipboard (serverOk : Bool) (s : ClipState) : Bool × ClipState :=
  if serverOk then
    if s.server.owner = none then
      (true, { s with bCBHasChanged := false,
                      synthesized_formats := List.replicate CF_MAX 0 })
    else (true, s)
  else (false, s)

/-- EmptyClipboard (clipboard.c lines 678-699).  The WM_DESTROYCLIPBOARD
send to the previous owner uses SendMessageTimeoutW with a 5000 ms bound
and its result is ignored, so ownerResponded does not influence the
outcome.  On server success the empty_clipboard request clears the
arbiter directory and makes the caller the owner (that server effect is
modelled from the spec's empty() operation, section 6), and the client
sets bCBHasChanged to TRUE and memsets synthesized_formats. -/
def EmptyClipboard (ownerResponded : Bool) (serverOk : Bool) (caller : Nat)
    (s : ClipState) : Bool × ClipState :=
  if serverOk then
    (true, { bCBHasChanged := true,
             synthesized_formats := List.replicate CF_MAX 0,
             server := { directory := [], owner := some caller } })
  else (false, s)

/-- GetClipboardData with the synthesis branch (clipboard.c lines
949-958 and render_synthesized_format, lines 505-544), at the level of
stored bytes.  conv abstracts the per-format conversion routines
(render_synthesized_textA/W, _bitmap, _dib, _metafile, _enhmetafile)
composed with the marshalling of the rendered object; fuel bounds the
GetClipboardData recursion inside render_synthesized_format.  Returns
the resulting bytes (none = the C function returned 0), the new state,
and the number of conversion-routine invocations.  When the format is
not marked synthesized, the server round-trip loop is abstracted as a
directory fetch (the render-broker handoff of that loop is modelled
separately by get_clipboard_loop).  A rendered payload is committed via
SetClipboardData, whose default-case marshal fails on a zero-size
buffer; the rendered handle is returned to the reader regardless of the
commit's outcome. -/
def getStep (cnv : Nat → Nat → Bytes → Option Bytes)
    (rec : Nat → ClipState → Option Bytes × ClipState × Nat)
    (format : Nat) (s : ClipState) : Option Bytes × ClipState × Nat :=
  if format < CF_MAX ∧ s.synthesized_formats.getD format 0 ≠ 0 then
    match rec (s.synthesized_formats.getD format 0) s with
    | (none, s1, n) => (none, s1, n)
    | (some src, s1, n) =>
      match cnv format (s.synthesized_formats.getD format 0) src with
      | none => (none, s1, n + 1)
      | some rendered =>
        if rendered.length = 0 then (some rendered, s1, n + 1)
        else
          (some rendered,
           { s1 with bCBHasChanged := true,
                     synthesized_formats := s1.synthesized_formats.set format 0,
                     server := srv_put format rendered s1.server },
           n + 1)
  else (srv_get format s.server, s, 0)

/-- The recursion over getStep: fuel bounds the nesting depth of
GetClipboardData calls. -/
def GetClipboardDataF (cnv : Nat → Nat → Bytes → Option Bytes) :
    Nat → Nat → ClipState → Option Bytes × ClipState × Nat
  | 0, _, s => (none, s, 0)
  | fuel + 1, format, s => getStep cnv (GetClipboardDataF cnv fuel) format s

/-- NTSTATUS code returned by the server when the reply buffer was too
small. -/
def STATUS_BUFFER_OVERFLOW : Nat := 0x80000005

/-- One reply of the get_clipboard_data server request: status code,
total data size, and the current clipboard owner. -/
structure GetReply where
  status : Nat
  total : Nat
  owner : Option Nat
deriving DecidableEq, Repr

/-- The retry loop of GetClipboardData (clipboard.c lines 960-1001) for
a format that is not marked synthesized, driven by the successive server
replies; the render flag starts TRUE and is cleared before the single
WM_RENDERFORMAT send.  Returns whether a data handle was produced and
how many WM_RENDERFORMAT messages were sent.  GlobalAlloc is assumed to
succeed (its failure returns 0 with no send). -/
def get_clipboard_loop : List GetReply → Bool → Bool × Nat
  | [], _ => (false, 0)
  | r :: rest, render =>
    if r.status = 0 ∧ r.total ≠ 0 then (true, 0)
    else if r.status = STATUS_BUFFER_OVERFLOW then get_clipboard_loop rest render
    else if r.status ≠ 0 then (false, 0)
    else if render = true ∧ r.owner ≠ none then
      let p := get_clipboard_loop rest false
      (p.1, p.2 + 1)
    else (false, 0)

/-- What the close-time text synthesis pass does: whether
set_clipboard_locale is invoked, and the list of (format, from) pairs
passed to add_synthesized_format. -/
structure TextSynthOutcome where
  storeLocale : Bool
  added : List (Nat × Nat)
deriving DecidableEq, Repr

/-- add_synthesized_text (clipboard.c lines 262-287): add synthesized
text formats based on which of CF_TEXT, CF_OEMTEXT, CF_UNICODETEXT
(and CF_LOCALE) are available in the clipboard. -/
def add_synthesized_text (has_text has_oemtext has_unicode has_locale : Bool) :
    TextSynthOutcome :=
  if !has_text && !has_oemtext && !has_unicode then ⟨false, []⟩
  else
    { storeLocale := !has_locale
      added :=
        if has_unicode then
          (if !has_text then [(CF_TEXT, CF_UNICODETEXT)] else []) ++
          (if !has_oemtext then [(CF_OEMTEXT, CF_UNICODETEXT)] else [])
        else if has_text then
          (if !has_oemtext then [(CF_OEMTEXT, CF_TEXT)] else []) ++
          (if !has_unicode then [(CF_UNICODETEXT, CF_TEXT)] else [])
        else
          (if !has_text then [(CF_TEXT, CF_OEMTEXT)] else []) ++
          (if !has_unicode then [(CF_UNICODETEXT, CF_OEMTEXT)] else []) }

/-- An initial client state: flag clear, no pending synthesis, empty
arbiter directory, no owner. -/
def initState : ClipState :=
  ⟨false, List.replicate CF_MAX 0, ⟨[], none⟩⟩

/-- The structural-validation failure conditions of unmarshal_data, for
the formats whose case performs validation (the guards of the C switch
that break out of it). -/
def unmarshal_validation_fails (format : Nat) (d : ReceivedData) : Prop :=
  (format = CF_BITMAP ∧
     (d.size < sizeofBITMAP ∨
      d.size < toUInt32 (d.asBitmap.bmWidthBytes * (d.asBitmap.bmHeight.natAbs : Int)) ∨
      d.asBitmap.bmBits ≠ 0)) ∨
  (format = CF_PALETTE ∧
     (d.size < sizeofLOGPALETTE ∨ d.size < offsetofPalEntry d.asPalette.palNumEntries)) ∨
  ((format = CF_METAFILEPICT ∨ format = CF_DSPMETAFILEPICT) ∧ d.size ≤ sizeofMETAFILEPICT)

/-- The failure conditions of marshal_data, format by format: the
acquisition or validation step of each case of the C switch that makes
it return 0 (object not introspectable, zero entry count or byte size,
allocation failure, lock failure, or a size not representable in
data_size_t in the default case). -/
def marshal_fails (format : Nat) (env : MarshalEnv) : Prop :=
  if format = CF_BITMAP ∨ format = CF_DSPBITMAP then
    env.getObjectBitmap = none ∨ env.allocOk = false
  else if format = CF_PALETTE then
    env.paletteEntries = 0 ∨ env.allocOk = false
  else if format = CF_ENHMETAFILE ∨ format = CF_DSPENHMETAFILE then
    env.enhSize = 0 ∨ env.allocOk = false
  else if format = CF_METAFILEPICT ∨ format = CF_DSPMETAFILEPICT then
    env.mfLock = false ∨ env.metaSize = 0 ∨ env.allocOk = false
  else
    env.globalSize = 0 ∨ env.globalSize % 4294967296 ≠ env.globalSize

theorem getD_set_self (l : List Nat) (i v : Nat) (h : i < l.length) :
    (l.set i v).getD i 0 = v := by
  induction l generalizing i with
  | nil => simp at h
  | cons a t ih =>
    cases i with
    | zero => rfl
    | succ j => exact ih j (Nat.lt_of_succ_lt_succ h)

theorem srv_get_put (fmt : Nat) (b : Bytes) (sv : ServerState) :
    srv_get fmt (srv_put fmt b sv) = some b := by
  simp [srv_get, srv_put, lookupFmt]

theorem unmarshal_bitmap_raw (d : ReceivedData)
    (h : d.size < sizeofBITMAP ∨
         d.size < toUInt32 (d.asBitmap.bmWidthBytes * (d.asBitmap.bmHeight.natAbs : Int)) ∨
         d.asBitmap.bmBits ≠ 0) :
    unmarshal_data CF_BITMAP d = .rawHandle := by
  unfold unmarshal_data
  rw [if_pos rfl]
  split_ifs with h1 h2 h3
  · rfl
  · rfl
  · rfl
  · rcases h with h | h | h
    · exact absurd h h1
    · exact absurd h h2
    · exact absurd h h3

theorem unmarshal_palette_raw (d : ReceivedData)
    (h : d.size < sizeofLOGPALETTE ∨ d.size < offsetofPalEntry d.asPalette.palNumEntries) :
    unmarshal_data CF_PALETTE d = .rawHandle := by
  unfold unmarshal_data
  rw [if_neg (by decide), if_neg (by decide), if_pos rfl]
  split_ifs with h1 h2
  · rfl
  · rfl
  · rcases h with h | h
    · exact absurd h h1
    · exact absurd h h2

theorem unmarshal_metafile_raw (format : Nat) (d : ReceivedData)
    (hfmt : format = CF_METAFILEPICT ∨ format = CF_DSPMETAFILEPICT)
    (h : d.size ≤ sizeofMETAFILEPICT) :
    unmarshal_data format d = .rawHandle := by
  rcases hfmt with hfmt | hfmt
  · subst hfmt
    unfold unmarshal_data
    rw [if_neg (by decide), if_neg (by decide), if_neg (by decide), if_neg (by decide),
        if_pos (by decide), if_pos h]
  · subst hfmt
    unfold unmarshal_data
    rw [if_neg (by decide), if_neg (by decide), if_neg (by decide), if_neg (by decide),
        if_pos (by decide), if_pos h]

/-- The CF_BITMAP payload of the C1 counterexample: header present
(24 bytes received), bmWidthBytes = 2, bmHeight = 1, bmBits NULL, so the
bit buffer is entirely absent from the payload. -/
def c1Bitmap : BITMAP := ⟨0, 4, 1, 2, 1, 4, 0⟩

def c1Data : ReceivedData := ⟨24, c1Bitmap, ⟨0, 0⟩⟩

/-- C1 counterexample: this CF_BITMAP payload is 24 bytes, smaller than
header (24) plus stride-times-height (2), yet unmarshal_data reaches
CreateBitmapIndirect and returns a reconstructed bitmap object — the
code only requires size to be at least the header size and at least the
bit-buffer size separately, never their sum, so the bit buffer here is
read out of bounds instead of being rejected. -/
theorem C1_counterexample :
    c1Data.size < sizeofBITMAP +
      toUInt32 (c1Data.asBitmap.bmWidthBytes * (c1Data.asBitmap.bmHeight.natAbs : Int)) ∧
    c1Data.asBitmap.bmBits = 0 ∧
    unmarshal_data CF_BITMAP c1Data =
      .createBitmap { c1Data.asBitmap with bmBits := sizeofBITMAP } := by
  refine ⟨by decide, rfl, ?_⟩
  decide

/-- C1 (amended): a CF_BITMAP payload whose size is smaller than the
BITMAP header size, or smaller than the bmWidthBytes-times-abs(bmHeight)
bit-buffer size (unsigned comparison), or whose embedded bmBits pointer
field is set, never yields a reconstructed bitmap object: unmarshal_data
returns the raw reallocated byte handle instead (which is also not a
failure result). -/
theorem C1_bitmap_unmarshal_reject (d : ReceivedData)
    (h : d.size < sizeofBITMAP ∨
         d.size < toUInt32 (d.asBitmap.bmWidthBytes * (d.asBitmap.bmHeight.natAbs : Int)) ∨
         d.asBitmap.bmBits ≠ 0) :
    unmarshal_data CF_BITMAP d = .rawHandle :=
  unmarshal_bitmap_raw d h

def c1Short : ReceivedData := ⟨3, ⟨0, 0, 0, 0, 0, 0, 0⟩, ⟨0, 0⟩⟩

theorem C1_bitmap_unmarshal_reject_witness :
    c1Short.size < sizeofBITMAP ∧ unmarshal_data CF_BITMAP c1Short = .rawHandle :=
  ⟨by decide, C1_bitmap_unmarshal_reject c1Short (Or.inl (by decide))⟩

def c2Data : ReceivedData := ⟨10, ⟨0, 0, 0, 0, 0, 0, 0⟩, ⟨0, 0⟩⟩

/-- C2 counterexample: a 10-byte CF_BITMAP payload fails the structural
validation (size is below the header size), yet the operation's result
is not a failure: unmarshal_data hands the malformed payload back to the
caller as the raw-bytes handle. -/
theorem C2_counterexample :
    unmarshal_validation_fails CF_BITMAP c2Data ∧
    unmarshal_data CF_BITMAP c2Data = .rawHandle := by
  constructor
  · exact Or.inl ⟨rfl, Or.inl (by decide)⟩
  · decide

/-- C2 (amended): for every built-in format and every input, marshal
fails — no handle is produced — exactly when one of its acquisition or
validation steps fails; but when unmarshal_data's structural validation
fails, the payload is not rejected with a failure — no partially
reconstructed object is produced, and the raw-bytes handle is returned
to the caller instead. -/
theorem C2_failure_no_partial_object :
    (∀ (format : Nat) (env : MarshalEnv),
       marshal_data format env = none ↔ marshal_fails format env) ∧
    (∀ format d, unmarshal_validation_fails format d →
       unmarshal_data format d = .rawHandle) := by
  constructor
  · intro format env
    unfold marshal_data marshal_fails
    by_cases h1 : format = CF_BITMAP ∨ format = CF_DSPBITMAP
    · rw [if_pos h1, if_pos h1]
      cases hg : env.getObjectBitmap with
      | none => simp
      | some bm => cases ha : env.allocOk <;> simp [ha]
    · rw [if_neg h1, if_neg h1]
      by_cases h2 : format = CF_PALETTE
      · rw [if_pos h2, if_pos h2]
        by_cases hpe : env.paletteEntries = 0
        · simp [hpe]
        · cases ha : env.allocOk <;> simp [hpe, ha]
      · rw [if_neg h2, if_neg h2]
        by_cases h3 : format = CF_ENHMETAFILE ∨ format = CF_DSPENHMETAFILE
        · rw [if_pos h3, if_pos h3]
          by_cases hes : env.enhSize = 0
          · simp [hes]
          · cases ha : env.allocOk <;> simp [hes, ha]
        · rw [if_neg h3, if_neg h3]
          by_cases h4 : format = CF_METAFILEPICT ∨ format = CF_DSPMETAFILEPICT
          · rw [if_pos h4, if_pos h4]
            cases hml : env.mfLock with
            | false => simp [hml]
            | true =>
              by_cases hms : env.metaSize = 0
              · simp [hml, hms]
              · cases ha : env.allocOk <;> simp [hml, hms, ha]
          · rw [if_neg h4, if_neg h4]
            by_cases hgs : env.globalSize = 0
            · simp [hgs]
            · by_cases hmod : env.globalSize % 4294967296 = env.globalSize
              · simp [hgs, hmod]
              · simp [hgs, hmod]
  · intro format d h
    rcases h with ⟨hfmt, h⟩ | ⟨hfmt, h⟩ | ⟨hfmt, h⟩
    · subst hfmt
      exact unmarshal_bitmap_raw d h
    · subst hfmt
      exact unmarshal_palette_raw d h
    · exact unmarshal_metafile_raw format d hfmt h

def c2PalData : ReceivedData := ⟨0, ⟨0, 0, 0, 0, 0, 0, 0⟩, ⟨0, 0⟩⟩

theorem C2_failure_no_partial_object_witness :
    unmarshal_validation_fails CF_PALETTE c2PalData ∧
    unmarshal_data CF_PALETTE c2PalData = .rawHandle :=
  ⟨Or.inr (Or.inl ⟨rfl, Or.inl (by decide)⟩),
   C2_failure_no_partial_object.2 CF_PALETTE c2PalData
     (Or.inr (Or.inl ⟨rfl, Or.inl (by decide)⟩))⟩

/-- C3 counterexample: a successful EmptyClipboard leaves the
changed-flag set to TRUE, not cleared to FALSE as the claim states —
the code marks the empty operation itself as a change so the close-time
synthesis pass and viewer notification run. -/
theorem C3_counterexample :
    (EmptyClipboard false true 7 initState).1 = true ∧
    (EmptyClipboard false true 7 initState).2.bCBHasChanged ≠ false := by
  decide

/-- C3 (amended): after a successful EmptyClipboard the synthesis table
is cleared, the arbiter directory is cleared and ownership passes to the
caller, and the changed-flag is set to TRUE (not cleared) — all of this
regardless of whether the previous owner responded to the bounded
5-second WM_DESTROYCLIPBOARD wait. -/
theorem C3_empty_clipboard (ownerResponded : Bool) (caller : Nat) (s : ClipState) :
    EmptyClipboard ownerResponded true caller s =
      (true, { bCBHasChanged := true,
               synthesized_formats := List.replicate CF_MAX 0,
               server := { directory := [], owner := some caller } }) := rfl

/-- C5: a successful OpenClipboard resets the changed-flag and the
synthesis table exactly when the arbiter reported no current owner;
when an owner exists, the whole client state — directory, changed-flag
and synthesis table — is left unchanged. -/
theorem C5_open_reset_boundary (s : ClipState) :
    (s.server.owner = none →
       OpenClipboard true s =
         (true, { s with bCBHasChanged := false,
                         synthesized_formats := List.replicate CF_MAX 0 })) ∧
    (∀ w, s.server.owner = some w → OpenClipboard true s = (true, s)) := by
  constructor
  · intro h
    unfold OpenClipboard
    rw [if_pos rfl, if_pos h]
  · intro w h
    unfold OpenClipboard
    rw [if_pos rfl, if_neg (by rw [h]; exact fun hc => Option.noConfusion hc)]

theorem C5_open_reset_boundary_witness :
    initState.server.owner = none ∧
    OpenClipboard true initState =
      (true, { initState with bCBHasChanged := false,
                              synthesized_formats := List.replicate CF_MAX 0 }) :=
  ⟨rfl, (C5_open_reset_boundary initState).1 rfl⟩

/-- C6: in the close-time text synthesis pass, for every non-empty,
non-full availability subset of the text family: if CF_UNICODETEXT is
present both missing members are derived from it; else if CF_TEXT is
present the missing members are derived from it; else they are derived
from CF_OEMTEXT — and a member already present is never re-derived. -/
theorem C6_text_synthesis_policy (t o u l : Bool)
    (hne : (t || o || u) = true) (hnf : (t && o && u) = false) :
    (u = true →
       ((t = false → (CF_TEXT, CF_UNICODETEXT) ∈ (add_synthesized_text t o u l).added) ∧
        (o = false → (CF_OEMTEXT, CF_UNICODETEXT) ∈ (add_synthesized_text t o u l).added) ∧
        ∀ p ∈ (add_synthesized_text t o u l).added, p.2 = CF_UNICODETEXT)) ∧
    (u = false → t = true →
       ((o = false → (CF_OEMTEXT, CF_TEXT) ∈ (add_synthesized_text t o u l).added) ∧
        (CF_UNICODETEXT, CF_TEXT) ∈ (add_synthesized_text t o u l).added ∧
        ∀ p ∈ (add_synthesized_text t o u l).added, p.2 = CF_TEXT)) ∧
    (u = false → t = false →
       ((CF_TEXT, CF_OEMTEXT) ∈ (add_synthesized_text t o u l).added ∧
        (CF_UNICODETEXT, CF_OEMTEXT) ∈ (add_synthesized_text t o u l).added ∧
        ∀ p ∈ (add_synthesized_text t o u l).added, p.2 = CF_OEMTEXT)) ∧
    (t = true → ∀ p ∈ (add_synthesized_text t o u l).added, p.1 ≠ CF_TEXT) ∧
    (o = true → ∀ p ∈ (add_synthesized_text t o u l).added, p.1 ≠ CF_OEMTEXT) ∧
    (u = true → ∀ p ∈ (add_synthesized_text t o u l).added, p.1 ≠ CF_UNICODETEXT) := by
  cases t <;> cases o <;> cases u <;> cases l <;>
    first
      | exact absurd hne (by decide)
      | exact absurd hnf (by decide)
      | refine ⟨?_, ?_, ?_, ?_, ?_, ?_⟩ <;> decide

theorem C6_text_synthesis_policy_witness :
    ((false || false || true) = true) ∧
    (CF_TEXT, CF_UNICODETEXT) ∈ (add_synthesized_text false false true false).added :=
  ⟨rfl, ((C6_text_synthesis_policy false false true false rfl rfl).1 rfl).1 rfl⟩

/-- C4: the first read of a format marked SynthesizedFrom that renders
successfully commits the rendered bytes and clears the pending mark
exactly once; a subsequent GetClipboardData on the same id returns the
identical cached bytes from the directory and performs no further
conversion. -/
theorem C4_render_once (cnv : Nat → Nat → Bytes → Option Bytes) (s : ClipState)
    (format source : Nat) (src rendered : Bytes)
    (hf : format < CF_MAX)
    (hlen : s.synthesized_formats.length = CF_MAX)
    (hmark : s.synthesized_formats.getD format 0 = source) (hne : source ≠ 0)
    (hsrc : s.synthesized_formats.getD source 0 = 0)
    (hget : srv_get source s.server = some src)
    (hconv : cnv format source src = some rendered)
    (hrne : rendered ≠ []) :
    ∃ s1 : ClipState,
      GetClipboardDataF cnv 2 format s = (some rendered, s1, 1) ∧
      s1.synthesized_formats.getD format 0 = 0 ∧
      GetClipboardDataF cnv 2 format s1 = (some rendered, s1, 0) := by
  have step1 : GetClipboardDataF cnv 1 source s = (some src, s, 0) := by
    show getStep cnv (GetClipboardDataF cnv 0) source s = (some src, s, 0)
    unfold getStep
    rw [if_neg (fun hc => hc.2 hsrc), hget]
  have h0 : ((s.synthesized_formats.set format 0).getD format 0) = 0 :=
    getD_set_self _ _ _ (by rw [hlen]; exact hf)
  refine ⟨{ s with bCBHasChanged := true,
                   synthesized_formats := s.synthesized_formats.set format 0,
                   server := srv_put format rendered s.server }, ?_, h0, ?_⟩
  · show getStep cnv (GetClipboardDataF cnv 1) format s = _
    unfold getStep
    rw [hmark, if_pos ⟨hf, hne⟩, step1]
    simp only [hconv]
    rw [if_neg (fun h => hrne (List.length_eq_zero.mp h))]
  · show getStep cnv (GetClipboardDataF cnv 1) format _ = _
    unfold getStep
    rw [if_neg (fun hc => hc.2 h0)]
    rw [show ({ s with bCBHasChanged := true,
                       synthesized_formats := s.synthesized_formats.set format 0,
                       server := srv_put format rendered s.server } : ClipState).server =
          srv_put format rendered s.server from rfl, srv_get_put]

def c4State : ClipState :=
  ⟨false, (List.replicate CF_MAX 0).set 1 13, ⟨[(13, [104, 0])], none⟩⟩

theorem C4_render_once_witness :
    (1 < CF_MAX ∧ c4State.synthesized_formats.getD 1 0 = 13) ∧
    ∃ s1 : ClipState,
      GetClipboardDataF (fun _ _ _ => some [104]) 2 1 c4State = (some [104], s1, 1) ∧
      s1.synthesized_formats.getD 1 0 = 0 ∧
      GetClipboardDataF (fun _ _ _ => some [104]) 2 1 s1 = (some [104], s1, 0) :=
  ⟨⟨by decide, by decide⟩,
   C4_render_once (fun _ _ _ => some [104]) c4State 1 13 [104, 0] [104]
     (by decide) (by decide) (by decide) (by decide) (by decide)
     (by decide) rfl (by decide)⟩

theorem get_loop_no_render (rs : List GetReply) :
    (get_clipboard_loop rs false).2 = 0 := by
  induction rs with
  | nil => rfl
  | cons r rest ih =>
    simp only [get_clipboard_loop]
    split_ifs with h1 h2 h3 h4
    · rfl
    · exact ih
    · rfl
    · exact absurd h4.1 (by decide)
    · rfl

theorem get_loop_le_one (rs : List GetReply) :
    (get_clipboard_loop rs true).2 ≤ 1 := by
  induction rs with
  | nil => decide
  | cons r rest ih =>
    simp only [get_clipboard_loop]
    split_ifs with h1 h2 h3 h4
    · decide
    · exact ih
    · decide
    · show (get_clipboard_loop rest false).2 + 1 ≤ 1
      rw [get_loop_no_render]
    · decide

/-- C8: within one GetClipboardData call on a format that is not marked
synthesized, at most one WM_RENDERFORMAT handoff is sent to the owner,
whatever the sequence of server replies; when the first reply reports no
data and no owner the call returns 0 immediately with no handoff, and
when an owner is asked but does not produce the data the call returns 0
after that single handoff rather than retrying. -/
theorem C8_render_handoff_once (rs : List GetReply) :
    (get_clipboard_loop rs true).2 ≤ 1 ∧
    (∀ rest : List GetReply, rs = ⟨0, 0, none⟩ :: rest →
       get_clipboard_loop rs true = (false, 0)) ∧
    (∀ w o2 rest, rs = ⟨0, 0, some w⟩ :: ⟨0, 0, o2⟩ :: rest →
       get_clipboard_loop rs true = (false, 1)) := by
  refine ⟨get_loop_le_one rs, ?_, ?_⟩
  · intro rest h
    subst h
    rfl
  · intro w o2 rest h
    subst h
    rfl

theorem C8_render_handoff_once_witness :
    get_clipboard_loop [⟨0, 0, none⟩] true = (false, 0) :=
  (C8_render_handoff_once [⟨0, 0, none⟩]).2.1 [] rfl

/-- C9: a successful SetClipboardData on a built-in format id clears any
pending SynthesizedFrom marking for that id, so the id is never both
synthesized-pending and backed by freshly stored bytes; a subsequent
GetClipboardData on that id takes the stored-bytes path with no
conversion invocation. -/
theorem C9_set_clears_synthesized (format : Nat) (d : Nat) (bytes : Bytes)
    (cnv : Nat → Nat → Bytes → Option Bytes) (s : ClipState)
    (hf : format < CF_MAX) (hlen : s.synthesized_formats.length = CF_MAX) :
    (SetClipboardData format (some d) (some bytes) true s).state.synthesized_formats.getD
        format 0 = 0 ∧
    GetClipboardDataF cnv 1 format (SetClipboardData format (some d) (some bytes) true s).state =
      (some bytes, (SetClipboardData format (some d) (some bytes) true s).state, 0) := by
  have h0 : (SetClipboardData format (some d) (some bytes) true s).state.synthesized_formats.getD
      format 0 = 0 := by
    show (s.synthesized_formats.set format 0).getD format 0 = 0
    exact getD_set_self _ _ _ (by rw [hlen]; exact hf)
  refine ⟨h0, ?_⟩
  show getStep cnv (GetClipboardDataF cnv 0) format _ = _
  unfold getStep
  rw [if_neg (fun hc => hc.2 h0)]
  rw [show (SetClipboardData format (some d) (some bytes) true s).state.server =
        srv_put format bytes s.server from rfl, srv_get_put]

theorem C9_set_clears_synthesized_witness :
    (1 < CF_MAX ∧ initState.synthesized_formats.length = CF_MAX) ∧
    (SetClipboardData 1 (some 5) (some [72]) true initState).state.synthesized_formats.getD
        1 0 = 0 :=
  ⟨⟨by decide, by decide⟩,
   (C9_set_clears_synthesized 1 5 [72] (fun _ _ _ => none) initState
      (by decide) (by decide)).1⟩

/-- C7: when the marshal step of SetClipboardData fails, the function
returns failure (0) before any arbiter round-trip: no set_clipboard_data
request is issued, and the whole client state — changed-flag and
synthesis table included — is unchanged. -/
theorem C7_marshal_fail_atomic (format : Nat) (d : Nat) (serverOk : Bool) (s : ClipState) :
    SetClipboardData format (some d) none serverOk s = ⟨s, none, false, none⟩ := rfl

/-- C10: SetClipboardData with a NULL data handle never consults the
codec layer (the outcome is independent of any marshal result),
registers the format at the arbiter with a zero-length payload, sets
the changed-flag on success, and still returns NULL when the
registration succeeds. -/
theorem C10_null_data_delayed_render (format : Nat) (m : Option Bytes) (serverOk : Bool)
    (s : ClipState) :
    SetClipboardData format none m serverOk s = SetClipboardData format none none serverOk s ∧
    SetClipboardData format none m true s =
      ⟨{ s with bCBHasChanged := true,
                synthesized_formats := s.synthesized_formats.set format 0,
                server := srv_put format [] s.server },
       none, true, some []⟩ :=
  ⟨rfl, rfl⟩

end Clip
